import Mathlib

/-!
Verification development for the mvp-backend scraping pipeline.

Shallow embedding of the core services:
  * `app/services/mapper_service.py`  — price parsing and the currency config cache
  * `app/services/parser_service.py`  — listing-link / next-page extraction and the
    field-mapping config cache
  * `app/services/ethics_service.py`  — `EthicalScraper` (robots fail-closed, visited set)
  * `app/services/scraper_service.py` — the job engine and `_persist_listing`
  * `app/models/scrape_job.py` and `app/api/v1/scrape_jobs.py` — job state machine

Conventions of the embedding:
  * Python strings are Lean `String`s; helper functions mirror the exact Python
    string operations used by the source (`str.strip`, `str.split`, substring test,
    regex character-class runs).
  * `Decimal` amounts are rationals; `decimal?` models the `Decimal(str)`
    constructor on the digit/dot/space strings that can reach it.
  * HTML documents are modelled post-parsing: a document is the list of its
    elements, each carrying the set of CSS selectors it matches, its stripped
    text and its attributes.  `select` / `selectOne` mirror soupsieve queries.
  * Wall-clock time is an abstract `Nat`; the per-request sleep, retry backoff
    and robots-cache TTL (never expiring within one job) are not modelled.
  * Database sessions are modelled by direct state passing; external effects
    (robots.txt availability, HTTP bodies) come from an explicit environment.
-/

namespace Mvp

/-- Substring test on character lists, mirroring Python `needle in haystack`. -/
def listContains (haystack needle : List Char) : Bool :=
  match haystack with
  | [] => needle.isEmpty
  | _ :: rest => needle.isPrefixOf haystack || listContains rest needle

/-- Python `needle in s` on strings. -/
def strContains (s needle : String) : Bool :=
  listContains s.data needle.data

/-- Python `str.lower()` restricted to ASCII letters (all symbols used by the
currency maps and the claims are unaffected by non-ASCII lowering). -/
def pyLower (s : String) : String :=
  ⟨s.data.map Char.toLower⟩

/-- Python `str.strip()` for the space character (the only whitespace appearing
in the price strings considered). -/
def pyStrip (s : String) : String :=
  ⟨((s.data.dropWhile (· = ' ')).reverse.dropWhile (· = ' ')).reverse⟩

/-- Python `str.split(sep)` for a single-character separator: keeps empty parts. -/
def pySplitChar (c : Char) (s : String) : List String :=
  (splitAux s.data []).map fun l => ⟨l⟩
where
  splitAux : List Char → List Char → List (List Char)
    | [], acc => [acc.reverse]
    | x :: xs, acc =>
      if x = c then acc.reverse :: splitAux xs []
      else splitAux xs (x :: acc)

/-- Python `str.replace(old, new)` for single characters. -/
def pyReplaceChar (old : Char) (new : Option Char) (s : String) : String :=
  ⟨s.data.foldr (fun c acc => if c = old then (match new with | some n => n :: acc | none => acc) else c :: acc) []⟩

/-- Drop every occurrence of a character (Python `s.replace(c, "")`). -/
def pyDropChar (c : Char) (s : String) : String :=
  pyReplaceChar c none s

end Mvp

namespace Mvp

/-! ### mapper_service.py — price parsing -/

/-- Character class of `_PRICE_PATTERN = re.compile(r"[\d\s.,]+")` (whitespace
restricted to the space character, the only one occurring in price strings). -/
def isPriceChar (c : Char) : Bool :=
  c.isDigit || c = ' ' || c = '.' || c = ','

/-- First maximal run of characters satisfying `p`, mirroring `pattern.search`
for a single-character-class `+` pattern. -/
def firstRun (p : Char → Bool) : List Char → Option (List Char)
  | [] => none
  | c :: cs => if p c then some (c :: cs.takeWhile p) else firstRun p cs

/-- Value of a digit list read as a natural number. -/
def digitsVal (l : List Char) : Nat :=
  l.foldl (fun acc c => acc * 10 + (c.toNat - '0'.toNat)) 0

/-- Model of `decimal.Decimal(s)` on the strings `parse_price` can produce:
leading/trailing spaces are tolerated, the body must be digits with at most one
dot and at least one digit; otherwise the constructor raises (`none`). -/
def decimal? (s : String) : Option ℚ :=
  let body := (pyStrip s).data
  if body.all (fun c => c.isDigit || c = '.') ∧
      (body.filter (· = '.')).length ≤ 1 ∧ body.any Char.isDigit then
    match pySplitChar '.' ⟨body⟩ with
    | [intPart] => some (mkRat (digitsVal intPart.data) 1)
    | [intPart, fracPart] =>
        some (mkRat (digitsVal intPart.data * 10 ^ fracPart.length +
          digitsVal fracPart.data) (10 ^ fracPart.length))
    | _ => none
  else
    none

/-- Source-order association list for `_DEFAULT_CURRENCY_MAP`. -/
def defaultCurrencyMap : List (String × String) :=
  [("€", "EUR"), ("eur", "EUR"), ("euro", "EUR"), ("euros", "EUR"),
   ("$", "USD"), ("usd", "USD"),
   ("£", "GBP"), ("gbp", "GBP"),
   ("R$", "BRL"), ("brl", "BRL"),
   ("¥", "JPY"), ("jpy", "JPY")]

/-- Model of `_get_currency_map`: the module cache when non-empty, else the
built-in defaults. -/
def getCurrencyMap (cache : List (String × String)) : List (String × String) :=
  if cache ≠ [] then cache else defaultCurrencyMap

/-- Currency resolution loop of `parse_price`: first map entry whose symbol is a
substring of the lowered or the original string; default `"EUR"`. -/
def scanCurrency (currencyMap : List (String × String)) (raw rawLower : String) : String :=
  match currencyMap with
  | [] => "EUR"
  | (symbol, code) :: rest =>
      if strContains rawLower symbol || strContains raw symbol then code
      else scanCurrency rest raw rawLower

/-- Separator normalisation of `parse_price` (mapper_service.py lines 148-171):
both separators → European; comma only → decimal iff the trailing group has two
digits; dot only → thousands iff every later group has three digits, spaces
removed; otherwise spaces removed.  Note: the comma branches do not remove
spaces. -/
def normalizeNumStr (numStr : String) : String :=
  if strContains numStr "," ∧ strContains numStr "." then
    pyReplaceChar ',' (some '.') (pyDropChar '.' numStr)
  else if strContains numStr "," then
    let parts := pySplitChar ',' numStr
    if (parts.getLast!).length = 2 then
      pyReplaceChar ',' (some '.') numStr
    else
      pyDropChar ',' numStr
  else if strContains numStr "." then
    let parts := pySplitChar '.' numStr
    let collapsed := if parts.tail.all (fun p => p.length = 3) then pyDropChar '.' numStr else numStr
    pyDropChar ' ' collapsed
  else
    pyDropChar ' ' numStr

/-- Model of `parse_price` (mapper_service.py lines 137-188).  The module-level
currency cache is passed explicitly; a fresh process has `cache = []`. -/
def parse_price (cache : List (String × String)) (raw : Option String) :
    Option ℚ × Option String :=
  match raw with
  | none => (none, none)
  | some raw =>
    if raw = "" then (none, none)
    else
      match firstRun isPriceChar raw.data with
      | none => (none, none)
      | some run =>
        let numStr := normalizeNumStr (pyStrip ⟨run⟩)
        match decimal? numStr with
        | none => (none, none)
        | some amount =>
            let currency := scanCurrency (getCurrencyMap cache) raw (pyLower raw)
            (some amount, some currency)

end Mvp

namespace Mvp

/-! ### Config caches (mapper_service.py `_load_currency_map`,
parser_service.py `_load_field_mappings`) -/

/-- Cache TTL shared by both config caches (`_CACHE_TTL_SECONDS = 300`). -/
def CACHE_TTL_SECONDS : Nat := 300

/-- Python-dict insertion: overwrite the value when the key exists, else append
(preserves insertion order like a `dict`). -/
def dictInsert (m : List (String × String)) (k v : String) : List (String × String) :=
  if m.any (fun p => p.1 == k) then
    m.map (fun p => if p.1 == k then (k, v) else p)
  else
    m ++ [(k, v)]

/-- Lowercase-variant extension of the currency map loaded from DB
(mapper_service.py lines 92-95). -/
def extendLowercase (mappings : List (String × String)) : List (String × String) :=
  mappings.foldl (fun m p => dictInsert (dictInsert m p.1 p.2) (pyLower p.1) p.2) []

/-- Module-level state of mapper_service: `_CURRENCY_MAP_CACHE` and
`_CACHE_TIMESTAMP`. -/
structure MapperCacheState where
  currency_map : List (String × String)
  timestamp : Option Nat
  deriving DecidableEq

/-- One row of `character_mappings` restricted to `category='currency'`,
`is_active=true` (the query filter of `_load_currency_map`). -/
abbrev CurrencyRow := String × String

/-- Model of `_load_currency_map` (mapper_service.py lines 62-105).  `dbLoad` is
the outcome of the DB round trip (`.error` models a raised exception).  Returns
the map handed to the caller, the new module state, and whether a DB load was
attempted on this call. -/
def load_currency_map (st : MapperCacheState) (now : Nat)
    (dbLoad : Except Unit (List CurrencyRow)) :
    List (String × String) × MapperCacheState × Bool :=
  if st.timestamp.isSome ∧ st.currency_map ≠ [] ∧
      now - st.timestamp.getD 0 < CACHE_TTL_SECONDS then
    (st.currency_map, st, false)
  else
    match dbLoad with
    | .ok mappings =>
        if mappings ≠ [] then
          let extended := extendLowercase mappings
          (extended, ⟨extended, some now⟩, true)
        else
          -- zero rows: fall through to the defaults without touching the cache
          (defaultCurrencyMap, st, true)
    | .error _ =>
        -- DB failure: warn and return the defaults; cache and timestamp untouched
        (defaultCurrencyMap, st, true)

/-- Source-order association list for parser_service `_DEFAULT_FIELD_MAP`. -/
def defaultFieldMap : List (String × String) :=
  [("price", "price"), ("preço", "price"), ("valor", "price"),
   ("business type", "business_type"), ("business state", "business_state"),
   ("tipo de negócio", "business_type"), ("tipo negócio", "business_type"),
   ("typology", "typology"), ("tipologia", "typology"), ("tipo", "typology"),
   ("bedrooms", "bedrooms"), ("quartos", "bedrooms"), ("assoalhadas", "bedrooms"),
   ("bathrooms", "bathrooms"), ("casas de banho", "bathrooms"), ("wc", "bathrooms"),
   ("living rooms", "living_rooms"), ("salas", "living_rooms"),
   ("floor", "floor"), ("andar", "floor"), ("piso", "floor"),
   ("energy certificate", "energy_certificate"),
   ("certificado energético", "energy_certificate"),
   ("classe energética", "energy_certificate"), ("energy class", "energy_certificate"),
   ("construction year", "construction_year"), ("ano de construção", "construction_year"),
   ("property type", "property_type"), ("tipo de imóvel", "property_type"),
   ("district", "district"), ("distrito", "district"),
   ("county", "county"), ("concelho", "county"),
   ("parish", "parish"), ("freguesia", "parish"),
   ("reference", "property_id"), ("referência", "property_id"), ("ref", "property_id")]

/-- Source-order association list for parser_service `_DEFAULT_FEATURE_MAP`. -/
def defaultFeatureMap : List (String × String) :=
  [("garage", "garage"), ("garagem", "garage"), ("parking", "garage"),
   ("estacionamento", "garage"), ("box", "garage"),
   ("elevator", "elevator"), ("elevador", "elevator"), ("lift", "elevator"),
   ("balcony", "balcony"), ("varanda", "balcony"), ("terraço", "balcony"),
   ("terrace", "balcony"), ("marquise", "balcony"),
   ("air conditioning", "air_conditioning"), ("ar condicionado", "air_conditioning"),
   ("a/c", "air_conditioning"), ("climatização", "air_conditioning"),
   ("pool", "swimming_pool"), ("piscina", "swimming_pool"), ("swimming", "swimming_pool")]

/-- Python `str.split()` on spaces, discarding empty parts. -/
def pyWords (s : String) : List String :=
  (pySplitChar ' ' s).filter (fun w => w ≠ "")

/-- Append a `(source_key, target_field)` candidate under one token of the
inverted index (`_build_token_index` inner loop). -/
def tokenIndexAdd (idx : List (String × List (String × String)))
    (token : String) (pair : String × String) :
    List (String × List (String × String)) :=
  if idx.any (fun p => p.1 == token) then
    idx.map (fun p => if p.1 == token then (p.1, p.2 ++ [pair]) else p)
  else
    idx ++ [(token, [pair])]

/-- Model of `_build_token_index` (parser_service.py lines 125-144). -/
def build_token_index (field_map : List (String × String)) :
    List (String × List (String × String)) :=
  field_map.foldl
    (fun idx p => (pyWords p.1).foldl (fun idx token => tokenIndexAdd idx token p) idx)
    []

/-- One active row of `field_mappings`: `(source_name, target_field, mapping_type)`. -/
structure FieldMappingRow where
  source_name : String
  target_field : String
  mapping_type : String
  deriving DecidableEq

/-- Module-level state of parser_service: `_FIELD_MAP_CACHE`,
`_FEATURE_MAP_CACHE`, `_FIELD_TOKEN_INDEX`, `_CACHE_TIMESTAMP`. -/
structure ParserCacheState where
  field_map : List (String × String)
  feature_map : List (String × String)
  token_index : List (String × List (String × String))
  timestamp : Option Nat
  deriving DecidableEq

/-- Model of `_load_field_mappings` (parser_service.py lines 173-236).  The
double-checked-locking re-check inside the critical section repeats the same
condition and collapses in this sequential model.  Returns the new module state
and whether a DB load was attempted. -/
def load_field_mappings (st : ParserCacheState) (now : Nat)
    (dbLoad : Except Unit (List FieldMappingRow)) : ParserCacheState × Bool :=
  if st.timestamp.isSome ∧ st.field_map ≠ [] ∧
      now - st.timestamp.getD 0 < CACHE_TTL_SECONDS then
    (st, false)
  else
    match dbLoad with
    | .ok rows =>
        let field_map := rows.foldl
          (fun m r => if r.mapping_type == "field" then
              dictInsert m (pyLower r.source_name) r.target_field else m) []
        let feature_map := rows.foldl
          (fun m r => if r.mapping_type == "feature" then
              dictInsert m (pyLower r.source_name) r.target_field else m) []
        let st := if field_map ≠ [] then
            { st with field_map := field_map, token_index := build_token_index field_map }
          else st
        let st := if feature_map ≠ [] then { st with feature_map := feature_map } else st
        ({ st with timestamp := some now }, true)
    | .error _ =>
        -- DB failure: fall back to the defaults and still advance the timestamp
        ({ field_map := defaultFieldMap,
           feature_map := defaultFeatureMap,
           token_index := build_token_index defaultFieldMap,
           timestamp := some now }, true)

end Mvp

namespace Mvp

/-! ### parser_service.py — DOM model, listing links, next page -/

/-- A parsed HTML element: the CSS selectors it matches (soupsieve queries are
abstracted by this membership), its stripped text, and its attributes. -/
structure Element where
  matched : List String
  text : String
  attrs : List (String × String)
  deriving DecidableEq

/-- A parsed document in document order (`BeautifulSoup(html, "lxml")`). -/
structure Doc where
  elements : List Element
  deriving DecidableEq

/-- Model of `soup.select(sel)`. -/
def Doc.select (d : Doc) (sel : String) : List Element :=
  d.elements.filter (fun e => e.matched.contains sel)

/-- Model of `soup.select_one(sel)`. -/
def Doc.selectOne (d : Doc) (sel : String) : Option Element :=
  (d.select sel).head?

/-- Model of `tag.get(name)`. -/
def Element.attr (e : Element) (name : String) : Option String :=
  (e.attrs.find? (fun p => p.1 == name)).map (fun p => p.2)

/-- Split a character list at the first occurrence of `pat`, returning the part
before it and the part after it. -/
def breakAtSub (pat : List Char) : List Char → Option (List Char × List Char)
  | [] => none
  | c :: cs =>
      if pat.isPrefixOf (c :: cs) then some ([], (c :: cs).drop pat.length)
      else (breakAtSub pat cs).map (fun p => (c :: p.1, p.2))

/-- Scheme + authority of a URL (`urlparse` projection `scheme://netloc`). -/
def origin (url : String) : String :=
  match breakAtSub "://".data url.data with
  | some (scheme, rest) => (⟨scheme⟩ : String) ++ "://" ++ (⟨rest.takeWhile (fun c => c ≠ '/')⟩ : String)
  | none => url

/-- Python `s.startswith(pre)`. -/
def pyStartsWith (s pre : String) : Bool :=
  pre.data.isPrefixOf s.data

/-- Model of `urllib.parse.urljoin` restricted to the href shapes the claims
exercise: absolute URLs pass through, root-relative paths attach to the base's
origin, and other relative paths attach under the base URL. -/
def urljoin (base href : String) : String :=
  if pyStartsWith href "http://" || pyStartsWith href "https://" then href
  else if pyStartsWith href "/" then origin base ++ href
  else base ++ "/" ++ href

/-- Selector configuration entries read by the crawl loop (`selectors` is a
free-form JSON map; regexes are modelled by their matching functions). -/
structure Selectors where
  listing_link_selector : Option String := none
  listing_link_pattern : Option (String → Bool) := none
  next_page_selector : Option String := none
  title_selector : Option String := none
  price_selector : Option String := none
  description_selector : Option String := none
  image_filter : Option (String → Bool) := none

/-- Model of `parse_listing_links` (parser_service.py lines 274-298): collect
hrefs of elements matching `listing_link_selector` (default `"a"`), resolve
against `base_url`, filter by `listing_link_pattern`, deduplicate preserving
order. -/
def parse_listing_links (doc : Doc) (base_url : String) (sel : Selectors) :
    List String :=
  let link_selector := sel.listing_link_selector.getD "a"
  (doc.select link_selector).foldl
    (fun links a_tag =>
      match a_tag.attr "href" with
      | none => links
      | some href =>
        if href = "" then links
        else
          let absolute_url := urljoin base_url href
          let patOk := match sel.listing_link_pattern with
            | some pat => pat absolute_url
            | none => true
          if patOk then
            if links.contains absolute_url then links else links ++ [absolute_url]
          else links)
    []

/-- Model of `parse_next_page` (parser_service.py lines 301-317): resolve the
href of the first element matching `next_page_selector`; `none` when the
selector is unset, unmatched, or the link has no (or an empty) href. -/
def parse_next_page (doc : Doc) (base_url : String) (sel : Selectors) :
    Option String :=
  match sel.next_page_selector with
  | none => none
  | some nextSel =>
    match doc.selectOne nextSel with
    | none => none
    | some next_link =>
      match next_link.attr "href" with
      | none => none
      | some href => if href = "" then none else some (urljoin base_url href)

end Mvp

namespace Mvp

/-! ### ethics_service.py — EthicalScraper -/

/-- External effects seen by one job: per-domain robots.txt availability, the
per-URL `can_fetch` verdict of the loaded parser, and HTTP bodies (already
parsed; `none` covers non-200 statuses, exhausted retries, timeouts and
transport errors, all of which make `get` return `None`). -/
structure FetchEnv where
  robotsLoaded : String → Bool
  robotsAllows : String → Bool
  httpBody : String → Option Doc

/-- Mutable state of one `EthicalScraper` instance, plus the log of page GETs
actually issued through the underlying session (the observable I/O). -/
structure ScraperState where
  robots_cache : List (String × Bool)
  visited_urls : List String
  requests : List String
  deriving DecidableEq

namespace EthicalScraper

/-- Model of `_get_domain`: `f"{parsed.scheme}://{parsed.netloc}"`. -/
def get_domain (url : String) : String :=
  origin url

/-- Model of `_load_robots` (ethics_service.py lines 79-107).  The 1-hour cache
TTL never expires within a single job, so the cached flag is authoritative. -/
def load_robots (env : FetchEnv) (st : ScraperState) (domain : String) :
    Bool × ScraperState :=
  match st.robots_cache.find? (fun p => p.1 == domain) with
  | some p => (p.2, st)
  | none =>
      let loaded := env.robotsLoaded domain
      (loaded, { st with robots_cache := st.robots_cache ++ [(domain, loaded)] })

/-- Model of `allowed` (ethics_service.py lines 109-121): fail-closed when the
robots.txt of the URL's domain is not loaded. -/
def allowed (env : FetchEnv) (st : ScraperState) (url : String) :
    Bool × ScraperState :=
  let r := load_robots env st (get_domain url)
  if r.1 then (env.robotsAllows url, r.2) else (false, r.2)

/-- Model of `is_visited`. -/
def is_visited (st : ScraperState) (url : String) : Bool :=
  st.visited_urls.contains url

/-- Model of `mark_visited`. -/
def mark_visited (st : ScraperState) (url : String) : ScraperState :=
  { st with visited_urls := st.visited_urls ++ [url] }

/-- Model of `reset_visited`. -/
def reset_visited (st : ScraperState) : ScraperState :=
  { st with visited_urls := [] }

/-- Model of `get` (ethics_service.py lines 141-179): skip visited URLs, apply
the robots verdict, sleep (not modelled), mark the URL visited, then issue the
request; the environment decides the outcome. -/
def get (env : FetchEnv) (st : ScraperState) (url : String) :
    Option Doc × ScraperState :=
  if is_visited st url then (none, st)
  else
    let a := allowed env st url
    if ¬ a.1 then (none, a.2)
    else
      let st := mark_visited a.2 url
      let st := { st with requests := st.requests ++ [url] }
      (env.httpBody url, st)

end EthicalScraper

end Mvp

namespace Mvp

/-! ### scraper_service.py `_persist_listing` — persistence / dedup -/

/-- Projection of `schema_to_listing_dict(schema, job)` onto the columns the
claims are about; every remaining scalar column is written through the same
non-null-overwrite loop and behaves like `title` / `typology`. -/
structure ListingData where
  source_url : Option String := none
  title : Option String := none
  typology : Option String := none
  price_amount : Option ℚ := none
  price_currency : Option String := none
  deriving DecidableEq

/-- An element of `schema.media`. -/
structure MediaIn where
  url : String
  alt_text : Option String := none
  type : Option String := none
  deriving DecidableEq

/-- A `listings` row. -/
structure ListingRow where
  id : Nat
  source_url : Option String
  title : Option String
  typology : Option String
  price_amount : Option ℚ
  price_currency : Option String
  scrape_job_id : Option String
  deriving DecidableEq

/-- A `media_assets` row. -/
structure MediaRow where
  listing_id : Nat
  url : String
  alt_text : Option String
  type : String
  deriving DecidableEq

/-- A `price_history` row. -/
structure PriceHistoryRow where
  listing_id : Nat
  price_amount : ℚ
  price_currency : String
  deriving DecidableEq

/-- Relational store; `next_id` models primary-key generation. -/
structure Db where
  listings : List ListingRow
  media_assets : List MediaRow
  price_history : List PriceHistoryRow
  next_id : Nat
  deriving DecidableEq

/-- Lookup step of `_persist_listing`: existing listing by `source_url`, only
attempted when the incoming value is truthy. -/
def findExistingListing (db : Db) (d : ListingData) : Option ListingRow :=
  if d.source_url.getD "" ≠ "" then
    db.listings.find? (fun r => r.source_url == d.source_url)
  else none

/-- Update loop of `_persist_listing` (scraper_service.py lines 306-311): every
non-null incoming scalar overwrites the stored one, `scrape_job_id` is set to
the current job (timestamps not modelled). -/
def applyUpdate (r : ListingRow) (d : ListingData) (jobId : String) : ListingRow :=
  { r with
    source_url := d.source_url <|> r.source_url,
    title := d.title <|> r.title,
    typology := d.typology <|> r.typology,
    price_amount := d.price_amount <|> r.price_amount,
    price_currency := d.price_currency <|> r.price_currency,
    scrape_job_id := some jobId }

/-- Model of `_persist_listing` (scraper_service.py lines 262-329).  Update
branch: append a `PriceHistory` row carrying the stored price when both prices
are non-null and differ, then overwrite the scalars; the update branch performs
no media writes.  Insert branch: create the listing and its media rows. -/
def persist_listing (db : Db) (d : ListingData) (media : List MediaIn)
    (jobId : String) : Db :=
  match findExistingListing db d with
  | some existing =>
      let price_history :=
        match d.price_amount, existing.price_amount with
        | some new_price, some old_price =>
            if old_price ≠ new_price then
              db.price_history ++
                [{ listing_id := existing.id,
                   price_amount := old_price,
                   price_currency := existing.price_currency.getD "EUR" }]
            else db.price_history
        | _, _ => db.price_history
      { db with
        listings := db.listings.map
          (fun r => if r.id = existing.id then applyUpdate r d jobId else r),
        price_history := price_history }
  | none =>
      let row : ListingRow :=
        { id := db.next_id,
          source_url := d.source_url,
          title := d.title,
          typology := d.typology,
          price_amount := d.price_amount,
          price_currency := d.price_currency,
          scrape_job_id := some jobId }
      { db with
        listings := db.listings ++ [row],
        media_assets := db.media_assets ++ media.map
          (fun m => { listing_id := db.next_id, url := m.url,
                      alt_text := m.alt_text, type := m.type.getD "photo" }),
        next_id := db.next_id + 1 }

end Mvp

namespace Mvp

/-! ### models/scrape_job.py and api/v1/scrape_jobs.py — job state machine -/

/-- The `progress` JSON column. -/
structure Progress where
  pages_visited : Nat
  listings_found : Nat
  listings_scraped : Nat
  errors : Nat
  deriving DecidableEq

/-- One entry of a `logs` list (timestamps not modelled). -/
structure LogEntry where
  message : String
  url : Option String
  deriving DecidableEq

/-- The `scrape_jobs` row; `logs` and `urls` are JSON objects modelled as
insertion-ordered association lists, exactly as the dict-keyed Python code
manipulates them. -/
structure ScrapeJob where
  site_key : String
  start_url : String
  max_pages : Nat
  status : String
  progress : Progress
  logs : List (String × List LogEntry)
  urls : List (String × List String)
  error_message : Option String
  deriving DecidableEq

namespace ScrapeJob

/-- Model of `mark_running` (scrape_job.py lines 58-76): unconditionally sets
the status and resets progress, logs and urls. -/
def mark_running (j : ScrapeJob) : ScrapeJob :=
  { j with
    status := "running",
    progress := ⟨0, 0, 0, 0⟩,
    logs := [("errors", []), ("warnings", []), ("info", [])],
    urls := [("found", []), ("scraped", []), ("failed", [])] }

/-- Model of `mark_completed`. -/
def mark_completed (j : ScrapeJob) : ScrapeJob :=
  { j with status := "completed" }

/-- Model of `mark_failed`. -/
def mark_failed (j : ScrapeJob) (error : String) : ScrapeJob :=
  { j with status := "failed", error_message := some error }

/-- Model of `mark_cancelled`. -/
def mark_cancelled (j : ScrapeJob) : ScrapeJob :=
  { j with status := "cancelled" }

/-- Model of `update_progress` for the engine's call, which always passes all
four counters. -/
def update_progress (j : ScrapeJob) (pv lf ls er : Nat) : ScrapeJob :=
  { j with progress := ⟨pv, lf, ls, er⟩ }

/-- Model of `add_log` (scrape_job.py lines 98-113) as it acts on the
in-memory object: append under the given level key if it exists, else create
the key.  (The engine passes singular levels `"error"` / `"warning"` while
`mark_running` creates plural keys, so engine entries land under fresh
singular keys.)  Note that `logs` is a plain `sqlalchemy.JSON` column and this
method mutates it in place (list append / item assignment) without
`MutableDict` or `flag_modified`, so the mutation is invisible to the ORM and
is never written to the stored row — see `add_job_log`. -/
def add_log (j : ScrapeJob) (level message : String) (url : Option String) :
    ScrapeJob :=
  let entry : LogEntry := ⟨message, url⟩
  if j.logs.any (fun p => p.1 == level) then
    let updated := j.logs.map (fun p => if p.1 == level then (p.1, p.2 ++ [entry]) else p)
    { j with logs := updated }
  else
    { j with logs := j.logs ++ [(level, [entry])] }

/-- Model of `add_url` (scrape_job.py lines 115-124) as it acts on the
in-memory object: deduplicated append under the given status key.  Like
`add_log`, this mutates the plain-JSON `urls` column in place, so the ORM
tracks no change and the stored row keeps its previous value — see
`track_url`. -/
def add_url (j : ScrapeJob) (status url : String) : ScrapeJob :=
  if j.urls.any (fun p => p.1 == status) then
    let updated := j.urls.map fun p =>
      if p.1 == status then (p.1, if p.2.contains url then p.2 else p.2 ++ [url]) else p
    { j with urls := updated }
  else
    { j with urls := j.urls ++ [(status, [url])] }

/-- Log entries recorded under one level key. -/
def logsAt (j : ScrapeJob) (level : String) : List LogEntry :=
  ((j.logs.find? (fun p => p.1 == level)).map (fun p => p.2)).getD []

/-- URLs tracked under one status key. -/
def urlsAt (j : ScrapeJob) (status : String) : List String :=
  ((j.urls.find? (fun p => p.1 == status)).map (fun p => p.2)).getD []

end ScrapeJob

/-- Terminal statuses (`_SSE_TERMINAL_STATUSES` and §4.6 of the spec). -/
def isTerminal (s : String) : Bool :=
  s == "completed" || s == "failed" || s == "cancelled"

/-- Model of the `cancel_job` endpoint guard (scrape_jobs.py lines 114-131):
only pending or running jobs can be cancelled, otherwise a conflict error. -/
def cancel_job (j : ScrapeJob) : Except String ScrapeJob :=
  if j.status = "pending" ∨ j.status = "running" then
    .ok j.mark_cancelled
  else
    .error "conflict"

/-- Model of the `delete_job` endpoint guard (scrape_jobs.py lines 134-145). -/
def delete_job (j : ScrapeJob) : Except String Unit :=
  if j.status = "running" then .error "conflict" else .ok ()

end Mvp

namespace Mvp

/-! ### scraper_service.py — the job engine -/

/-- Site configuration bound by a job (`site_configs` row; regexes modelled by
their matchers). -/
structure SiteConfig where
  key : String
  base_url : String
  selectors : Selectors
  extraction_mode : String := "direct"
  link_pattern : Option (String → Bool) := none
  image_filter : Option (String → Bool) := none
  pagination_type : String := "html_next"
  pagination_param : Option String := none
  is_active : Bool := true

/-- Persistent state touched by the engine: the job row and the listings
store. -/
structure World where
  job : ScrapeJob
  db : Db
  deriving DecidableEq

/-- Immutable context of one `_run_scrape_async` invocation. -/
structure EngineCtx where
  env : FetchEnv
  job_id : String
  site_key : String
  base_url : String
  selectors : Selectors
  extraction_mode : String

/-- Per-run mutable state: the world, the scraper instance, and the four local
progress counters of `_run_scrape_async`. -/
structure LoopState where
  world : World
  scraper : ScraperState
  pages_visited : Nat
  listings_found : Nat
  listings_scraped : Nat
  errors : Nat
  deriving DecidableEq

/-- Model of `_check_job_cancelled`: a fresh session reads the job status. -/
def check_job_cancelled (w : World) : Bool :=
  w.job.status == "cancelled"

/-- Model of `_add_job_log`: a fresh session loads the job, calls
`ScrapeJob.add_log` and commits.  `add_log` mutates the plain-JSON `logs`
column in place, SQLAlchemy flags nothing dirty, and the commit writes
nothing; the session (and with it the mutated copy) is then discarded.  The
stored job row — the only state the next session can observe — is therefore
unchanged. -/
def add_job_log (w : World) (level message : String) (url : Option String) : World :=
  w

/-- Model of `_track_url`: like `_add_job_log`, the in-place mutation of the
plain-JSON `urls` column by `ScrapeJob.add_url` is untracked by the ORM, the
commit persists nothing, and the stored row is unchanged (`urls.found`,
`urls.scraped` and `urls.failed` keep the values `mark_running` wrote). -/
def track_url (w : World) (status url : String) : World :=
  w

/-- Model of `_update_job_progress` with the engine's four keyword counters. -/
def update_job_progress (w : World) (pv lf ls er : Nat) : World :=
  { w with job := w.job.update_progress pv lf ls er }

/-- Model of `_complete_job`: only a running job is marked completed. -/
def complete_job (w : World) : World :=
  if w.job.status = "running" then { w with job := w.job.mark_completed } else w

/-- Model of `_fail_job`: only a running job is marked failed. -/
def fail_job (w : World) (error : String) : World :=
  if w.job.status = "running" then { w with job := w.job.mark_failed error } else w

/-- Try-block of the per-listing processing (scraper_service.py lines 168-199).
`normalize_partner_payload` first dispatches on the partner key (`ValueError`
when no normalizer is registered; only `"pearls"` is).  For the registered key:
at line 177 the async `parse_listing_page` is called WITHOUT `await` (its other
caller, preview_service.py line 134, does await it), so `raw_data` is a
coroutine object and `normalize_pearls_payload` raises `AttributeError` on
`raw.get("price")` before any field is used; the parse/normalize result is
therefore never produced. -/
def try_parse_and_normalize (detail : Doc) (link : String) (sel : Selectors)
    (extraction_mode : String) (site_key : String) :
    Except String (ListingData × List MediaIn) :=
  if site_key ≠ "pearls" then
    .error ("ValueError: No normalizer registered for partner: " ++ site_key)
  else
    .error "AttributeError: coroutine object has no attribute get"

/-- Per-listing body of the crawl loop (scraper_service.py lines 163-205),
including the `except` handler. -/
def process_listing (ctx : EngineCtx) (ls : LoopState) (link : String) : LoopState :=
  let fetched := EthicalScraper.get ctx.env ls.scraper link
  let ls := { ls with scraper := fetched.2 }
  match fetched.1 with
  | none =>
      let w := add_job_log (track_url ls.world "failed" link)
        "warning" "Failed to fetch listing page" (some link)
      { ls with world := w }
  | some doc =>
      match try_parse_and_normalize doc link ctx.selectors ctx.extraction_mode ctx.site_key with
      | .ok payload =>
          let w := { ls.world with
            db := persist_listing ls.world.db payload.1 payload.2 ctx.job_id }
          let w := track_url w "scraped" link
          let scraped := ls.listings_scraped + 1
          let w := update_job_progress w ls.pages_visited ls.listings_found scraped ls.errors
          { ls with world := w, listings_scraped := scraped }
      | .error e =>
          let w := add_job_log (track_url ls.world "failed" link)
            "error" ("Error processing listing: " ++ e) (some link)
          { ls with world := w, errors := ls.errors + 1 }

/-- Inner `for link in links` loop with its cancellation checkpoint (`break`). -/
def process_links (ctx : EngineCtx) : List String → LoopState → LoopState
  | [], ls => ls
  | link :: rest, ls =>
      if check_job_cancelled ls.world then ls
      else process_links ctx rest (process_listing ctx ls link)

/-- Outer `for page_num in range(max_pages)` loop of `_run_scrape_async`
(scraper_service.py lines 135-212), structurally recursive on the remaining
page budget. -/
def run_pages (ctx : EngineCtx) : Nat → String → LoopState → LoopState
  | 0, _, ls => ls
  | n + 1, current_url, ls =>
      if check_job_cancelled ls.world then ls
      else
        let fetched := EthicalScraper.get ctx.env ls.scraper current_url
        let ls := { ls with scraper := fetched.2 }
        match fetched.1 with
        | none =>
            let w := add_job_log ls.world "error"
              ("Failed to fetch page: " ++ current_url) (some current_url)
            { ls with world := w, errors := ls.errors + 1 }
        | some doc =>
            let ls := { ls with pages_visited := ls.pages_visited + 1 }
            let links := parse_listing_links doc ctx.base_url ctx.selectors
            let ls := { ls with listings_found := ls.listings_found + links.length }
            let ls := { ls with world := links.foldl (fun w l => track_url w "found" l) ls.world }
            let ls := process_links ctx links ls
            match parse_next_page doc ctx.base_url ctx.selectors with
            | none => ls
            | some next_url => run_pages ctx n next_url ls

/-- Model of `_run_scrape_async` (scraper_service.py lines 99-221): fresh
scraper, crawl loop, then `_complete_job`. -/
def run_scrape_async (ctx : EngineCtx) (start_url : String) (max_pages : Nat)
    (w : World) : LoopState :=
  let ls : LoopState :=
    { world := w, scraper := ⟨[], [], []⟩,
      pages_visited := 0, listings_found := 0, listings_scraped := 0, errors := 0 }
  let ls := run_pages ctx max_pages start_url ls
  { ls with world := complete_job ls.world }

/-- Selector overlay of `_run_scrape_async` lines 123-127: `link_pattern` and
`image_filter` are merged into the site's selector map. -/
def merged_selectors (site : SiteConfig) : Selectors :=
  let s := site.selectors
  let s := match site.link_pattern with
    | some p => { s with listing_link_pattern := some p }
    | none => s
  match site.image_filter with
  | some f => { s with image_filter := some f }
  | none => s

/-- Model of `run_scrape_job` (scraper_service.py lines 40-96): an inactive or
missing site config fails the job; otherwise the claim step marks the job
running — unconditionally — and the crawl runs with the site's fields (note
that `pagination_type` and `pagination_param` are not among the fields handed
to `_run_scrape_async`). -/
def run_scrape_job (env : FetchEnv) (jobId : String) (site : SiteConfig)
    (w : World) : LoopState :=
  if ¬ site.is_active then
    { world := { w with job := w.job.mark_failed "Site config not found or inactive" },
      scraper := ⟨[], [], []⟩,
      pages_visited := 0, listings_found := 0, listings_scraped := 0, errors := 0 }
  else
    let w := { w with job := w.job.mark_running }
    let ctx : EngineCtx :=
      { env := env, job_id := jobId, site_key := site.key,
        base_url := site.base_url, selectors := merged_selectors site,
        extraction_mode := site.extraction_mode }
    run_scrape_async ctx w.job.start_url w.job.max_pages w

end Mvp

namespace Mvp

/-! ### Scenario fixtures -/

/-- Empty relational store. -/
def emptyDb : Db :=
  { listings := [], media_assets := [], price_history := [], next_id := 1 }

/-- Scenario A start page: exactly one listing link matching `a.l`. -/
def startDocA : Doc :=
  ⟨[{ matched := ["a.l"], text := "Villa T2", attrs := [("href", "/a")] }]⟩

/-- Scenario A detail page: `h1` title, `.p` price, `.d` long description. -/
def detailDocA : Doc :=
  ⟨[{ matched := ["h1"], text := "Villa T2", attrs := [] },
    { matched := [".p"], text := "250 000 €", attrs := [] },
    { matched := [".d"],
      text := "A spacious villa with garden, terrace, sea view and private parking nearby.",
      attrs := [] }]⟩

/-- Scenario A selector configuration. -/
def selectorsA : Selectors :=
  { listing_link_selector := some "a.l",
    title_selector := some "h1",
    price_selector := some ".p",
    description_selector := some ".d" }

/-- Scenario A site config: direct extraction, `html_next` pagination, bound to
the registered `pearls` normalizer. -/
def siteA : SiteConfig :=
  { key := "pearls", base_url := "https://x.test", selectors := selectorsA,
    extraction_mode := "direct", pagination_type := "html_next" }

/-- Scenario A environment: robots loads and allows everything; the start page
and the single detail page are served. -/
def envA : FetchEnv :=
  { robotsLoaded := fun _ => true,
    robotsAllows := fun _ => true,
    httpBody := fun u =>
      if u = "https://x.test/search" then some startDocA
      else if u = "https://x.test/a" then some detailDocA
      else none }

/-- Scenario A pending job. -/
def jobA : ScrapeJob :=
  { site_key := "pearls", start_url := "https://x.test/search", max_pages := 1,
    status := "pending", progress := ⟨0, 0, 0, 0⟩, logs := [], urls := [],
    error_message := none }

/-- Scenario A full engine run. -/
def runA : LoopState :=
  run_scrape_job envA "job-1" siteA { job := jobA, db := emptyDb }

/-- A results page with no pagination link at all. -/
def docNoNext : Doc := ⟨[]⟩

/-- Selector configuration of an `incremental_path` site: no
`next_page_selector`. -/
def selIncremental : Selectors :=
  { listing_link_selector := some "a.l" }

/-- Site config with `pagination_type = "incremental_path"`. -/
def siteIncremental : SiteConfig :=
  { key := "pearls", base_url := "https://x.test", selectors := selIncremental,
    extraction_mode := "direct", pagination_type := "incremental_path" }

/-- Environment serving both the start page and the page-2 URL the spec's
pagination rule would fetch next. -/
def envIncremental : FetchEnv :=
  { robotsLoaded := fun _ => true,
    robotsAllows := fun _ => true,
    httpBody := fun u =>
      if u = "https://x.test/list" then some docNoNext
      else if u = "https://x.test/list/2" then some docNoNext
      else none }

/-- Job crawling the incremental-path site with budget for several pages. -/
def jobIncremental : ScrapeJob :=
  { site_key := "pearls", start_url := "https://x.test/list", max_pages := 5,
    status := "pending", progress := ⟨0, 0, 0, 0⟩, logs := [], urls := [],
    error_message := none }

/-- Modelled from the spec: "Compute next page URL by `pagination_type`:
`html_next`: extract from DOM via `next_page_selector`; stop if absent;
`incremental_path`: `start_url/{page+1}`; `query_param`: append
`{pagination_param}={page+1}`" (§4.6 step 3e).  This definition follows the
spec's words and is compared against the engine's computation. -/
def next_page_url_spec (pagination_type : String) (pagination_param : Option String)
    (start_url current_url : String) (page : Nat) (doc : Doc) (base_url : String)
    (sel : Selectors) : Option String :=
  if pagination_type = "html_next" then
    parse_next_page doc base_url sel
  else if pagination_type = "incremental_path" then
    some (start_url ++ "/" ++ toString (page + 1))
  else if pagination_type = "query_param" then
    match pagination_param with
    | some param => some (current_url ++ "?" ++ param ++ "=" ++ toString (page + 1))
    | none => none
  else none

/-- Scenario C environment: robots.txt of `https://blocked.test` returns
HTTP 500, so it cannot be loaded; every other host is fine. -/
def envBlocked : FetchEnv :=
  { robotsLoaded := fun d => !(d == "https://blocked.test"),
    robotsAllows := fun _ => true,
    httpBody := fun u =>
      if u = "https://blocked.test/list" then some docNoNext else none }

/-- Site config under the blocked host. -/
def siteBlocked : SiteConfig :=
  { key := "pearls", base_url := "https://blocked.test",
    selectors := selIncremental, extraction_mode := "direct" }

/-- Job crawling the blocked host. -/
def jobBlocked : ScrapeJob :=
  { site_key := "pearls", start_url := "https://blocked.test/list", max_pages := 3,
    status := "pending", progress := ⟨0, 0, 0, 0⟩, logs := [], urls := [],
    error_message := none }

/-- Scenario C full engine run. -/
def runBlocked : LoopState :=
  run_scrape_job envBlocked "job-4" siteBlocked { job := jobBlocked, db := emptyDb }

/-- Stored listing for the rescrape scenarios (Scenario B seed). -/
def oldRowB : ListingRow :=
  { id := 1, source_url := some "https://x.test/a", title := some "Villa T2",
    typology := none, price_amount := some (mkRat 300000 1),
    price_currency := some "EUR", scrape_job_id := some "job-0" }

/-- Store already holding the seeded listing with one media row. -/
def dbSeeded : Db :=
  { listings := [oldRowB],
    media_assets := [{ listing_id := 1, url := "https://x.test/img1.jpg",
                       alt_text := none, type := "photo" }],
    price_history := [], next_id := 2 }

/-- Incoming rescrape data for the same `source_url` with a dropped price. -/
def rescrapeData : ListingData :=
  { source_url := some "https://x.test/a", title := some "Villa T2",
    price_amount := some (mkRat 280000 1), price_currency := some "EUR" }

/-- Incoming media on rescrape: one URL already stored, one new URL. -/
def rescrapeMedia : List MediaIn :=
  [{ url := "https://x.test/img1.jpg" }, { url := "https://x.test/img2.jpg" }]

/-- Environment for the visited-set witness (nothing loads). -/
def envVisited : FetchEnv :=
  { robotsLoaded := fun _ => true,
    robotsAllows := fun _ => true,
    httpBody := fun _ => none }

/-- Scraper state that has already issued a request for one URL. -/
def stVisited : ScraperState :=
  { robots_cache := [("https://v.test", true)],
    visited_urls := ["https://v.test/a"],
    requests := ["https://v.test/a"] }

end Mvp

namespace Mvp

/-- Scenario A job already cancelled at the moment the background runner picks
it up. -/
def jobACancelled : ScrapeJob :=
  { jobA with status := "cancelled" }

end Mvp

namespace Mvp

/-! ### Claim theorems -/

/-- Claim C1 (code bug evidence): running the engine on the Scenario A fixture
(direct mode, one listing link, detail page with title/price/description) ends
with the job completed but with `listings_scraped = 0`, no `listings` row and
no `price_history` row: both pages are fetched, yet the un-awaited
`parse_listing_page` coroutine makes normalization raise, so the listing
never reaches persistence.  The failed-URL tracking and the error log entry
the except handler attempts are in-place JSON mutations that the commit drops,
so the stored row also ends with empty `urls.failed` and no error log. -/
theorem c1_scenarioA_run_produces_no_listing :
    runA.world.job.status = "completed" ∧
    runA.world.job.progress.listings_scraped = 0 ∧
    runA.world.db.listings = [] ∧
    runA.world.db.price_history = [] ∧
    runA.scraper.requests = ["https://x.test/search", "https://x.test/a"] ∧
    runA.world.job.urlsAt "failed" = [] ∧
    runA.world.job.logsAt "error" = [] := by
  decide

/-- Claim C2 (counterexample): for a site with
`pagination_type = "incremental_path"` the spec-modelled rule yields
`start_url/2` after page 1, but the engine's next-page computation — always
`parse_next_page` over the DOM — yields `none`, and the full crawl issues a
request only for the start page, never for `start_url/2`, although the
environment would serve it. -/
theorem c2_pagination_type_counterexample :
    parse_next_page docNoNext "https://x.test" selIncremental = none ∧
    next_page_url_spec "incremental_path" none "https://x.test/list"
      "https://x.test/list" 1 docNoNext "https://x.test" selIncremental =
      some "https://x.test/list/2" ∧
    (run_scrape_job envIncremental "job-2" siteIncremental
      { job := jobIncremental, db := emptyDb }).scraper.requests =
      ["https://x.test/list"] := by
  decide

/-- Claim C2 (amended): the engine's crawl is entirely independent of the
site's `pagination_type` and `pagination_param` — `run_scrape_job` never reads
them, taking the next page URL from the DOM via `next_page_selector` in every
mode (and stopping when it is absent). -/
theorem c2_engine_ignores_pagination_type (env : FetchEnv) (jobId : String)
    (site : SiteConfig) (w : World) (t : String) (p : Option String) :
    run_scrape_job env jobId
        { site with pagination_type := t, pagination_param := p } w =
      run_scrape_job env jobId site w :=
  rfl

/-- Claim C3 (counterexample): a job whose status is `cancelled` when the
background runner picks it up does not stay cancelled — the runner's claim
step (`mark_running`, called without any status guard) moves it to `running`
and the Scenario A crawl then finishes it as `completed`. -/
theorem c3_cancelled_job_resurrected_counterexample :
    (run_scrape_job envA "job-3" siteA
      { job := jobACancelled, db := emptyDb }).world.job.status = "completed" ∧
    ((run_scrape_job envA "job-3" siteA
      { job := jobACancelled, db := emptyDb }).world.job.status = "cancelled" → False) := by
  decide

/-- Claim C4 (counterexample): crawling a host whose robots.txt cannot be
fetched completes with `listings_scraped = 0` as claimed, but the persisted
progress `errors` counter stays 0 (progress is only written after a successful
listing), contradicting the claimed `errors ≥ 1`. -/
theorem c4_progress_errors_counter_counterexample :
    runBlocked.world.job.status = "completed" ∧
    runBlocked.world.job.progress.listings_scraped = 0 ∧
    runBlocked.world.job.progress.errors = 0 ∧
    (1 ≤ runBlocked.world.job.progress.errors → False) := by
  decide

/-- Claim C6 (counterexample): rescraping an existing listing with an incoming
media URL that is not yet stored inserts no `media_assets` row at all — the
update branch of `_persist_listing` performs no media writes. -/
theorem c6_media_on_rescrape_counterexample :
    (persist_listing dbSeeded rescrapeData rescrapeMedia "job-5").media_assets =
      dbSeeded.media_assets ∧
    ((persist_listing dbSeeded rescrapeData rescrapeMedia "job-5").media_assets.map
      (fun m => m.url)).contains "https://x.test/img2.jpg" = false := by
  decide

/-- Claim C7: the four round-trip price strings of the spec parse to exactly
the claimed amount/currency pairs (amounts stated as explicit rationals and
reconciled with the decimal literals). -/
theorem c7_round_trip_prices :
    parse_price [] (some "250 000 €") = (some (mkRat 250000 1), some "EUR") ∧
    parse_price [] (some "1.250.000 €") = (some (mkRat 1250000 1), some "EUR") ∧
    parse_price [] (some "250.000,50 €") = (some (mkRat 500001 2), some "EUR") ∧
    parse_price [] (some "$500,000") = (some (mkRat 500000 1), some "USD") ∧
    (mkRat 250000 1 : ℚ) = 250000 ∧ (mkRat 1250000 1 : ℚ) = 1250000 ∧
    (mkRat 500001 2 : ℚ) = 250000.50 ∧ (mkRat 500000 1 : ℚ) = 500000 := by
  refine ⟨by decide, by decide, by decide, by decide, ?_, ?_, ?_, ?_⟩ <;>
    · rw [Rat.mkRat_eq_div]; norm_num

/-- Claim C8 (code bug evidence): `"250 000,50 €"` — spaces as thousand
separators combined with a two-digit comma decimal — parses to `(None, None)`:
the comma-only branch rewrites the string to `"250 000.50"` without removing
the spaces, so the `Decimal` constructor raises. -/
theorem c8_spaced_comma_decimal_parses_to_none :
    parse_price [] (some "250 000,50 €") = (none, none) := by
  decide

/-- Claim C9 (counterexample): a failed currency-map refresh on an empty cache
leaves the cache state completely untouched — the timestamp does not advance to
the current time — and the very next read attempts another DB load. -/
theorem c9_currency_cache_timestamp_counterexample :
    (load_currency_map ⟨[], none⟩ 5 (.error ())).2.1 = (⟨[], none⟩ : MapperCacheState) ∧
    ((load_currency_map ⟨[], none⟩ 5 (.error ())).2.1.timestamp = some 5 → False) ∧
    (load_currency_map (load_currency_map ⟨[], none⟩ 5 (.error ())).2.1 6
      (.error ())).2.2 = true := by
  decide

end Mvp

namespace Mvp

/-- Claim C6 (amended): on the update branch of `_persist_listing` (an existing
listing matched by `source_url`), the `media_assets` table is left completely
unchanged: no incoming media URL is inserted — not even one that is not yet
stored — and no existing media row is deleted. -/
theorem c6_update_branch_media_unchanged (db : Db) (d : ListingData)
    (media : List MediaIn) (jobId : String) (old : ListingRow)
    (hfind : findExistingListing db d = some old) :
    (persist_listing db d media jobId).media_assets = db.media_assets := by
  simp [persist_listing, hfind]

/-- Claim C6 witness: the amended theorem applied to the seeded rescrape
fixture. -/
theorem c6_update_branch_media_unchanged_witness :
    (persist_listing dbSeeded rescrapeData rescrapeMedia "job-5").media_assets =
      dbSeeded.media_assets :=
  c6_update_branch_media_unchanged dbSeeded rescrapeData rescrapeMedia "job-5"
    oldRowB (by decide)

/-- Claim C5: on the update branch of `_persist_listing`, a `price_history` row
is appended iff the incoming and the stored `price_amount` are both non-null and
differ; the appended row carries the previously stored amount and currency; and
the listing's own `price_amount` is overwritten with the incoming value. -/
theorem c5_price_history_law (db : Db) (d : ListingData) (media : List MediaIn)
    (jobId : String) (old : ListingRow) (c : String)
    (hfind : findExistingListing db d = some old)
    (hcur : old.price_currency = some c) :
    ((persist_listing db d media jobId).price_history ≠ db.price_history ↔
      ∃ n o, d.price_amount = some n ∧ old.price_amount = some o ∧ o ≠ n) ∧
    (∀ n o, d.price_amount = some n → old.price_amount = some o → o ≠ n →
      (persist_listing db d media jobId).price_history =
        db.price_history ++ [⟨old.id, o, c⟩]) ∧
    (∀ n, d.price_amount = some n →
      ∀ r ∈ (persist_listing db d media jobId).listings, r.id = old.id →
        r.price_amount = some n) := by
  refine ⟨?_, ?_, ?_⟩
  · constructor
    · intro hne
      rcases hd : d.price_amount with _ | n
      · simp [persist_listing, hfind, hd] at hne
      · rcases ho : old.price_amount with _ | o
        · simp [persist_listing, hfind, hd, ho] at hne
        · by_cases heq : o = n
          · simp [persist_listing, hfind, hd, ho, heq] at hne
          · exact ⟨n, o, rfl, rfl, heq⟩
    · rintro ⟨n, o, hd, ho, hne⟩
      simp [persist_listing, hfind, hd, ho, hne]
  · intro n o hd ho hne
    simp [persist_listing, hfind, hd, ho, hne, hcur]
  · intro n hd r hr hid
    rcases hd2 : d.price_amount with _ | n2
    · simp [hd2] at hd
    · rw [hd2] at hd
      injection hd with hd; subst hd
      simp [persist_listing, hfind] at hr
      obtain ⟨r₀, hr₀, hre⟩ := hr
      by_cases h0 : r₀.id = old.id
      · rw [if_pos h0] at hre
        subst hre
        simp [applyUpdate, hd2]
      · rw [if_neg h0] at hre
        subst hre
        exact absurd hid h0

/-- Claim C5 witness: rescraping the seeded listing (stored 300000 EUR) with an
incoming 280000 appends exactly the old price row and overwrites the listing
price, by direct application of the law. -/
theorem c5_price_history_law_witness :
    (persist_listing dbSeeded rescrapeData rescrapeMedia "job-5").price_history =
      dbSeeded.price_history ++ [⟨1, mkRat 300000 1, "EUR"⟩] ∧
    (∀ r ∈ (persist_listing dbSeeded rescrapeData rescrapeMedia "job-5").listings,
      r.id = 1 → r.price_amount = some (mkRat 280000 1)) :=
  let h := c5_price_history_law dbSeeded rescrapeData rescrapeMedia "job-5"
    oldRowB "EUR" (by decide) rfl
  ⟨h.2.1 (mkRat 280000 1) (mkRat 300000 1) rfl rfl (by decide),
   fun r hr => h.2.2 (mkRat 280000 1) rfl r hr⟩

/-- Claim C3 (amended): every guarded operation preserves terminal statuses —
the cancel endpoint answers conflict, and the engine's completion and failure
writes are no-ops on a non-running job; only the engine's unguarded claim step
(`mark_running`, see the counterexample) can move a job out of a terminal
state. -/
theorem c3_terminal_closure_amended (j : ScrapeJob) (dbv : Db) (e : String)
    (h : isTerminal j.status = true) :
    cancel_job j = .error "conflict" ∧
    complete_job ⟨j, dbv⟩ = ⟨j, dbv⟩ ∧
    fail_job ⟨j, dbv⟩ e = ⟨j, dbv⟩ := by
  have hs : (j.status = "completed" ∨ j.status = "failed") ∨ j.status = "cancelled" := by
    simpa [isTerminal] using h
  have hp : j.status ≠ "pending" := by rcases hs with (h1|h1)|h1 <;> simp [h1]
  have hr : j.status ≠ "running" := by rcases hs with (h1|h1)|h1 <;> simp [h1]
  refine ⟨?_, ?_, ?_⟩
  · simp [cancel_job, hp, hr]
  · simp [complete_job, hr]
  · simp [fail_job, hr]

/-- Claim C3 witness: the amended closure applied to the cancelled Scenario A
job. -/
theorem c3_terminal_closure_amended_witness :
    cancel_job jobACancelled = .error "conflict" ∧
    complete_job ⟨jobACancelled, emptyDb⟩ = ⟨jobACancelled, emptyDb⟩ ∧
    fail_job ⟨jobACancelled, emptyDb⟩ "boom" = ⟨jobACancelled, emptyDb⟩ :=
  c3_terminal_closure_amended jobACancelled emptyDb "boom" (by decide)

/-- Claim C9 (amended): on a DB failure during a cache miss, the field-mapping
loader fills both maps with the built-in defaults and advances its timestamp to
the current time, so a read within one TTL performs no DB load; the currency
loader instead returns the defaults while leaving its cache state (including
the timestamp) untouched, so the next read with an empty cache attempts the DB
again. -/
theorem c9_cache_fallback_amended (stp : ParserCacheState) (stm : MapperCacheState)
    (now later : Nat) (db2 : Except Unit (List FieldMappingRow))
    (db3 : Except Unit (List CurrencyRow))
    (hp : ¬ (stp.timestamp.isSome ∧ stp.field_map ≠ [] ∧
      now - stp.timestamp.getD 0 < CACHE_TTL_SECONDS))
    (hm : ¬ (stm.timestamp.isSome ∧ stm.currency_map ≠ [] ∧
      now - stm.timestamp.getD 0 < CACHE_TTL_SECONDS))
    (hlater : later - now < CACHE_TTL_SECONDS)
    (hempty : stm.currency_map = []) :
    (load_field_mappings stp now (.error ())).1 =
      ⟨defaultFieldMap, defaultFeatureMap, build_token_index defaultFieldMap, some now⟩ ∧
    (load_field_mappings (load_field_mappings stp now (.error ())).1 later db2).2 = false ∧
    (load_currency_map stm now (.error ())).1 = defaultCurrencyMap ∧
    (load_currency_map stm now (.error ())).2.1 = stm ∧
    (load_currency_map (load_currency_map stm now (.error ())).2.1 later db3).2.2 = true := by
  have h1 : load_field_mappings stp now (.error ()) =
      (⟨defaultFieldMap, defaultFeatureMap, build_token_index defaultFieldMap, some now⟩, true) := by
    simp [load_field_mappings, hp]
  have h2 : (load_currency_map stm now (.error ())).2.1 = stm := by
    simp [load_currency_map, hm]
  refine ⟨by rw [h1], ?_, ?_, h2, ?_⟩
  · rw [h1]
    have hne : defaultFieldMap ≠ [] := by decide
    simp [load_field_mappings, hne, hlater]
  · simp [load_currency_map, hm]
  · rw [h2]
    rcases db3 with _ | rows
    · simp [load_currency_map, hempty]
    · by_cases hrows : rows = []
      · simp [load_currency_map, hempty, hrows]
      · simp [load_currency_map, hempty, hrows]

/-- Claim C9 witness: the amended behaviour at a concrete failed refresh at
time 5 followed by a read at time 6. -/
theorem c9_cache_fallback_amended_witness :
    (load_field_mappings ⟨[], [], [], none⟩ 5 (.error ())).1 =
      ⟨defaultFieldMap, defaultFeatureMap, build_token_index defaultFieldMap, some 5⟩ ∧
    (load_field_mappings (load_field_mappings ⟨[], [], [], none⟩ 5 (.error ())).1 6
      (.error ())).2 = false ∧
    (load_currency_map ⟨[], none⟩ 5 (.error ())).1 = defaultCurrencyMap ∧
    (load_currency_map ⟨[], none⟩ 5 (.error ())).2.1 = (⟨[], none⟩ : MapperCacheState) ∧
    (load_currency_map (load_currency_map ⟨[], none⟩ 5 (.error ())).2.1 6
      (.error ())).2.2 = true :=
  c9_cache_fallback_amended ⟨[], [], [], none⟩ ⟨[], none⟩ 5 6 (.error ()) (.error ())
    (by decide) (by decide) (by decide) rfl

end Mvp

namespace Mvp

/-- State invariance of `_load_robots`: loading a robots verdict never touches
the visited set or the request log. -/
theorem load_robots_state (env : FetchEnv) (st : ScraperState) (d : String) :
    (EthicalScraper.load_robots env st d).2.requests = st.requests ∧
    (EthicalScraper.load_robots env st d).2.visited_urls = st.visited_urls := by
  rcases hfind : st.robots_cache.find? (fun p => p.1 == d) with _ | p <;>
    simp [EthicalScraper.load_robots, hfind]

/-- Both branches of `allowed` return the state produced by `_load_robots`. -/
theorem allowed_snd (env : FetchEnv) (st : ScraperState) (url : String) :
    (EthicalScraper.allowed env st url).2 =
      (EthicalScraper.load_robots env st (EthicalScraper.get_domain url)).2 := by
  simp only [EthicalScraper.allowed]
  split <;> rfl

/-- A visited URL short-circuits `get`: null result, state untouched. -/
theorem get_of_visited (env : FetchEnv) (st : ScraperState) (url : String)
    (h : EthicalScraper.is_visited st url = true) :
    EthicalScraper.get env st url = (none, st) := by
  simp [EthicalScraper.get, h]

/-- A robots-refused URL makes `get` return null with only the robots cache
possibly updated. -/
theorem get_of_blocked (env : FetchEnv) (st : ScraperState) (url : String)
    (h : EthicalScraper.is_visited st url = false)
    (hb : (EthicalScraper.allowed env st url).1 = false) :
    EthicalScraper.get env st url = (none, (EthicalScraper.allowed env st url).2) := by
  simp [EthicalScraper.get, h, hb]

/-- When `get` reaches the request stage it marks the URL visited and logs the
request before the environment decides the HTTP outcome. -/
theorem get_of_allowed (env : FetchEnv) (st : ScraperState) (url : String)
    (h : EthicalScraper.is_visited st url = false)
    (ha : (EthicalScraper.allowed env st url).1 = true) :
    EthicalScraper.get env st url =
      (env.httpBody url,
        { (EthicalScraper.allowed env st url).2 with
          visited_urls := (EthicalScraper.allowed env st url).2.visited_urls ++ [url],
          requests := (EthicalScraper.allowed env st url).2.requests ++ [url] }) := by
  simp [EthicalScraper.get, h, ha, EthicalScraper.mark_visited]

/-- Claim C10: `EthicalScraper.get` issues at most one HTTP request per URL per
fetcher lifetime — a visited URL is answered null with no I/O and no state
change; whenever a request is issued the URL is already in the visited set, and
any later `get` of it returns null without I/O; the visited set only grows
across `get` calls (until `reset_visited` clears it); and robots-refused URLs
are not added to the set and issue no request. -/
theorem c10_visited_set_guarantee (env : FetchEnv) (st : ScraperState) (url : String) :
    (EthicalScraper.is_visited st url = true →
      EthicalScraper.get env st url = (none, st)) ∧
    ((EthicalScraper.get env st url).2.requests ≠ st.requests →
      (EthicalScraper.get env st url).2.requests = st.requests ++ [url] ∧
      EthicalScraper.is_visited (EthicalScraper.get env st url).2 url = true ∧
      EthicalScraper.get env (EthicalScraper.get env st url).2 url =
        (none, (EthicalScraper.get env st url).2)) ∧
    (∀ u, EthicalScraper.is_visited st u = true →
      EthicalScraper.is_visited (EthicalScraper.get env st url).2 u = true) ∧
    (EthicalScraper.is_visited st url = false →
      (EthicalScraper.allowed env st url).1 = false →
      (EthicalScraper.get env st url).1 = none ∧
      (EthicalScraper.get env st url).2.visited_urls = st.visited_urls ∧
      (EthicalScraper.get env st url).2.requests = st.requests) ∧
    (EthicalScraper.reset_visited st).visited_urls = [] := by
  have hreqA : (EthicalScraper.allowed env st url).2.requests = st.requests := by
    rw [allowed_snd]; exact (load_robots_state env st _).1
  have hvisA : (EthicalScraper.allowed env st url).2.visited_urls = st.visited_urls := by
    rw [allowed_snd]; exact (load_robots_state env st _).2
  refine ⟨get_of_visited env st url, ?_, ?_, ?_, rfl⟩
  · intro hreq
    rcases hv : EthicalScraper.is_visited st url with _ | _
    · rcases ha : (EthicalScraper.allowed env st url).1 with _ | _
      · rw [get_of_blocked env st url hv ha, hreqA] at hreq
        exact absurd rfl hreq
      · have hg := get_of_allowed env st url hv ha
        have hvis2 : EthicalScraper.is_visited (EthicalScraper.get env st url).2 url = true := by
          rw [hg]
          simp [EthicalScraper.is_visited]
        refine ⟨by rw [hg, hreqA], hvis2, get_of_visited env _ url hvis2⟩
    · rw [get_of_visited env st url hv] at hreq
      exact absurd rfl hreq
  · intro u hu
    rcases hv : EthicalScraper.is_visited st url with _ | _
    · rcases ha : (EthicalScraper.allowed env st url).1 with _ | _
      · rw [get_of_blocked env st url hv ha]
        simpa [EthicalScraper.is_visited, hvisA] using hu
      · rw [get_of_allowed env st url hv ha]
        simp [EthicalScraper.is_visited, hvisA] at hu ⊢
        exact Or.inl hu
    · rw [get_of_visited env st url hv]
      exact hu
  · intro hv hb
    rw [get_of_blocked env st url hv hb]
    exact ⟨rfl, hvisA, hreqA⟩

/-- Claim C10 witness: a URL already requested on this instance is answered
null with the state untouched. -/
theorem c10_visited_set_guarantee_witness :
    EthicalScraper.get envVisited stVisited "https://v.test/a" = (none, stVisited) :=
  (c10_visited_set_guarantee envVisited stVisited "https://v.test/a").1 (by decide)

/-- A failed robots load forces the fail-closed branch of `allowed`. -/
theorem allowed_fst_of_not_loaded (env : FetchEnv) (st : ScraperState) (url : String)
    (h : (EthicalScraper.load_robots env st (EthicalScraper.get_domain url)).1 = false) :
    (EthicalScraper.allowed env st url).1 = false := by
  simp [EthicalScraper.allowed, h]

/-- Claim C4 (amended): when robots.txt of the start URL's host cannot be
fetched, every `get` of a URL whose robots verdict is not loaded returns null
and issues no HTTP request, and the crawl completes having issued zero page
requests: the job ends `completed` with `listings_scraped = 0`, while the
persisted progress `errors` counter remains 0 (the engine's local counter
reaches 1 but progress is only written after a successful listing) and the
stored error log stays empty (the except path's log write is an in-place JSON
mutation that the commit drops). -/
theorem c4_robots_fail_closed_amended (env : FetchEnv) (jobId : String)
    (site : SiteConfig) (w : World)
    (hactive : site.is_active = true)
    (hrobots : env.robotsLoaded (EthicalScraper.get_domain w.job.start_url) = false)
    (hpages : 1 ≤ w.job.max_pages) :
    (run_scrape_job env jobId site w).world.job.status = "completed" ∧
    (run_scrape_job env jobId site w).world.job.progress.listings_scraped = 0 ∧
    (run_scrape_job env jobId site w).world.job.progress.errors = 0 ∧
    (run_scrape_job env jobId site w).world.job.logsAt "error" = [] ∧
    (run_scrape_job env jobId site w).scraper.requests = [] ∧
    (run_scrape_job env jobId site w).errors = 1 ∧
    (∀ url st, (EthicalScraper.load_robots env st (EthicalScraper.get_domain url)).1 = false →
      (EthicalScraper.get env st url).1 = none ∧
      (EthicalScraper.get env st url).2.requests = st.requests) := by
  obtain ⟨m, hm⟩ : ∃ m, w.job.max_pages = m + 1 := ⟨w.job.max_pages - 1, by omega⟩
  have hload : EthicalScraper.load_robots env ⟨[], [], []⟩
      (EthicalScraper.get_domain w.job.start_url) =
      (false, ⟨[(EthicalScraper.get_domain w.job.start_url, false)], [], []⟩) := by
    simp [EthicalScraper.load_robots, hrobots]
  have hallow : (EthicalScraper.allowed env ⟨[], [], []⟩ w.job.start_url).1 = false :=
    allowed_fst_of_not_loaded env _ _ (by rw [hload])
  have hget : EthicalScraper.get env ⟨[], [], []⟩ w.job.start_url =
      (none, ⟨[(EthicalScraper.get_domain w.job.start_url, false)], [], []⟩) := by
    rw [get_of_blocked env ⟨[], [], []⟩ w.job.start_url (by rfl) hallow, allowed_snd, hload]
  have hrun : run_scrape_job env jobId site w =
      { world := complete_job { job := w.job.mark_running, db := w.db },
        scraper := ⟨[(EthicalScraper.get_domain w.job.start_url, false)], [], []⟩,
        pages_visited := 0, listings_found := 0, listings_scraped := 0, errors := 1 } := by
    simp only [run_scrape_job, hactive, Bool.true_eq_false, not_false_eq_true, reduceIte,
      run_scrape_async]
    simp only [ScrapeJob.mark_running, hm]
    simp only [run_pages, check_job_cancelled]
    simp only [show (("running" : String) == "cancelled") = false from rfl, Bool.false_eq_true,
      reduceIte]
    rw [show EthicalScraper.get env ⟨[], [], []⟩ w.job.start_url =
      (none, ⟨[(EthicalScraper.get_domain w.job.start_url, false)], [], []⟩) from hget]
    simp [add_job_log, ScrapeJob.mark_running]
  refine ⟨?_, ?_, ?_, ?_, ?_, ?_, ?_⟩
  · rw [hrun]; rfl
  · rw [hrun]; rfl
  · rw [hrun]; rfl
  · rw [hrun]; rfl
  · rw [hrun]
  · rw [hrun]
  · intro url st h
    rcases hv : EthicalScraper.is_visited st url with _ | _
    · rw [get_of_blocked env st url hv (allowed_fst_of_not_loaded env st url h)]
      refine ⟨rfl, ?_⟩
      rw [allowed_snd]
      exact (load_robots_state env st _).1
    · rw [get_of_visited env st url hv]
      exact ⟨rfl, rfl⟩

/-- Claim C4 witness: the amended robots fail-closed behaviour on the concrete
Scenario C run (`https://blocked.test` robots.txt unavailable). -/
theorem c4_robots_fail_closed_amended_witness :
    runBlocked.world.job.status = "completed" ∧
    runBlocked.world.job.progress.listings_scraped = 0 ∧
    runBlocked.world.job.progress.errors = 0 ∧
    runBlocked.world.job.logsAt "error" = [] ∧
    runBlocked.scraper.requests = [] ∧
    runBlocked.errors = 1 :=
  let h := c4_robots_fail_closed_amended envBlocked "job-4" siteBlocked
    ⟨jobBlocked, emptyDb⟩ rfl (by decide) (by decide)
  ⟨h.1, h.2.1, h.2.2.1, h.2.2.2.1, h.2.2.2.2.1, h.2.2.2.2.2.1⟩

end Mvp
